import Mathlib

/-!
Shallow embedding of `custom_components/xiaomi_vacuum/vacuum.py`
(Xiaomi 1C vacuum adapter for Home Assistant).

The Python module consists of two module-level lookup tables
(`FAN_SPEEDS`, `STATUS_TO_ACTIVITY`), an entity class `Xiaomi1CVacuum`
holding optional integer fields, a polling `update` method, read-only
properties derived from the stored fields, and one-line command methods
delegating to an external device client.

Modelling choices:
* Python `Optional[int]` fields become `Option Int`.
* The Python dicts become association lists with first-match lookup
  (`List.find?`); both dicts have pairwise distinct keys, and the
  reversed fan-speed dict has pairwise distinct keys as well, so
  first-match lookup coincides with Python dict lookup.
* Calls on the external device client are recorded as a trace
  (`List DeviceCall`): each method returns the updated entity state
  together with the list of device-client calls it performed, in order.
* The status object returned by the bundled miio client is modelled as a
  record `DreameStatus` carrying exactly the attributes that
  `Xiaomi1CVacuum.update` reads; the device call itself is modelled as an
  `Except DeviceException DreameStatus` result supplied to `update`.
-/

/-- Home Assistant `VacuumActivity` enum (the six values used by this
integration). -/
inductive VacuumActivity where
  | cleaning
  | idle
  | paused
  | error
  | returning
  | docked
  deriving DecidableEq, Repr

/-- The miio `DeviceException` raised by the device client. Its payload is
irrelevant to the adapter; we carry a message string. -/
structure DeviceException where
  msg : String
  deriving DecidableEq, Repr

/-- A single call made on the external device client object
(`self._device`). -/
inductive DeviceCall where
  | start
  | stop
  | stop_sweeping
  | return_home
  | find
  | set_fan_speed (speed : Int)
  | status
  | raw_command (command : String) (params : List (String × String))
  deriving DecidableEq, Repr

/-- `FAN_SPEEDS = {"Silent": 0, "Standard": 1, "Medium": 2, "Turbo": 3}` -/
def FAN_SPEEDS : List (String × Int) :=
  [("Silent", 0), ("Standard", 1), ("Medium", 2), ("Turbo", 3)]

/-- Python dict membership / lookup on `FAN_SPEEDS` (`FAN_SPEEDS[name]`,
`name in FAN_SPEEDS`). Keys are pairwise distinct, so first-match lookup
is dict lookup. -/
def fanSpeedsLookup (name : String) : Option Int :=
  (FAN_SPEEDS.find? (fun p => p.1 == name)).map Prod.snd

/-- `STATUS_TO_ACTIVITY`: device status code -> `VacuumActivity`. -/
def STATUS_TO_ACTIVITY : List (Int × VacuumActivity) :=
  [ (1, VacuumActivity.cleaning)    -- Sweeping
  , (2, VacuumActivity.idle)        -- Idle
  , (3, VacuumActivity.paused)      -- Paused
  , (4, VacuumActivity.error)       -- Error
  , (5, VacuumActivity.returning)   -- Go_charging
  , (6, VacuumActivity.docked) ]    -- Charging

/-- `STATUS_TO_ACTIVITY.get(c, VacuumActivity.IDLE)`. -/
def statusToActivityGet (c : Int) : VacuumActivity :=
  ((STATUS_TO_ACTIVITY.find? (fun p => p.1 == c)).map Prod.snd).getD
    VacuumActivity.idle

/-- The status object returned by `self._device.status()` (bundled miio
`DreameVacuum` client); only the attributes read by
`Xiaomi1CVacuum.update` are modelled. -/
structure DreameStatus where
  battery : Option Int
  fan_speed : Option Int
  status : Option Int
  error : Option Int
  last_clean : Option Int
  area : Option Int
  deriving DecidableEq, Repr

/-- The mutable fields of the `Xiaomi1CVacuum` entity, as initialised in
`__init__` and mutated only by `update`. -/
structure Xiaomi1CVacuum where
  _available : Bool
  _battery : Option Int
  _fan_speed : Option Int
  _status : Option Int
  _error : Option Int
  _clean_time : Option Int
  _clean_area : Option Int
  deriving DecidableEq, Repr

namespace Xiaomi1CVacuum

/-- `__init__`: all data fields start as `None`, `_available` as `False`. -/
def init : Xiaomi1CVacuum :=
  { _available := false
  , _battery := none
  , _fan_speed := none
  , _status := none
  , _error := none
  , _clean_time := none
  , _clean_area := none }

/-- Property `available`. -/
def available (self : Xiaomi1CVacuum) : Bool :=
  self._available

/-- Property `activity`: `None` when `_status` is `None`, otherwise
`STATUS_TO_ACTIVITY.get(self._status, VacuumActivity.IDLE)`. -/
def activity (self : Xiaomi1CVacuum) : Option VacuumActivity :=
  match self._status with
  | none => none
  | some c => some (statusToActivityGet c)

/-- Property `battery_level`. -/
def battery_level (self : Xiaomi1CVacuum) : Option Int :=
  self._battery

/-- Property `fan_speed`: reverses `FAN_SPEEDS` and looks the stored
integer up with default `"Standard"`. The reversed dict has pairwise
distinct keys (the values 0..3 of `FAN_SPEEDS`), so first-match lookup is
dict lookup. -/
def fan_speed (self : Xiaomi1CVacuum) : Option String :=
  match self._fan_speed with
  | none => none
  | some v =>
      let rev := FAN_SPEEDS.map (fun p => (p.2, p.1))
      some (((rev.find? (fun p => p.1 == v)).map Prod.snd).getD "Standard")

/-- Property `fan_speed_list`. -/
def fan_speed_list (self : Xiaomi1CVacuum) : List String :=
  FAN_SPEEDS.map Prod.fst

/-- Property `extra_state_attributes`: a dict built by inserting, in
order, `cleaning_time`, `cleaning_area` and `error_code` under the
guards in the source; modelled as an association list in insertion
order. All three values are integers. -/
def extra_state_attributes (self : Xiaomi1CVacuum) : List (String × Int) :=
  (match self._clean_time with
   | some t => [("cleaning_time", t)]
   | none => []) ++
  (match self._clean_area with
   | some a => [("cleaning_area", a)]
   | none => []) ++
  (match self._error with
   | some e => if e ≠ 0 then [("error_code", e)] else []
   | none => [])

/-- Method `update`: performs the single device call
`self._device.status()` (recorded in the trace), whose outcome is the
supplied `res`; on success stores the six status attributes and sets
`_available := true`, on `DeviceException` only sets
`_available := false`. -/
def update (self : Xiaomi1CVacuum)
    (res : Except DeviceException DreameStatus) :
    Xiaomi1CVacuum × List DeviceCall :=
  match res with
  | .ok status =>
      ({ self with
          _available := true
        , _battery := status.battery
        , _fan_speed := status.fan_speed
        , _status := status.status
        , _error := status.error
        , _clean_time := status.last_clean
        , _clean_area := status.area }, [DeviceCall.status])
  | .error _ =>
      ({ self with _available := false }, [DeviceCall.status])

/-- Command `start`: delegates to `self._device.start()`. -/
def start (self : Xiaomi1CVacuum) : Xiaomi1CVacuum × List DeviceCall :=
  (self, [DeviceCall.start])

/-- Command `stop`: delegates to `self._device.stop()`. -/
def stop (self : Xiaomi1CVacuum) : Xiaomi1CVacuum × List DeviceCall :=
  (self, [DeviceCall.stop])

/-- Command `pause`: delegates to `self._device.stop_sweeping()`
(the 1C has no real pause). -/
def pause (self : Xiaomi1CVacuum) : Xiaomi1CVacuum × List DeviceCall :=
  (self, [DeviceCall.stop_sweeping])

/-- Command `return_to_base`: delegates to `self._device.return_home()`. -/
def return_to_base (self : Xiaomi1CVacuum) :
    Xiaomi1CVacuum × List DeviceCall :=
  (self, [DeviceCall.return_home])

/-- Command `locate`: delegates to `self._device.find()`. -/
def locate (self : Xiaomi1CVacuum) : Xiaomi1CVacuum × List DeviceCall :=
  (self, [DeviceCall.find])

/-- Command `set_fan_speed`: if the name is not a key of `FAN_SPEEDS`,
logs and returns making no device call; otherwise delegates to
`self._device.set_fan_speed(FAN_SPEEDS[fan_speed])`. -/
def set_fan_speed (self : Xiaomi1CVacuum) (fan_speed : String) :
    Xiaomi1CVacuum × List DeviceCall :=
  match fanSpeedsLookup fan_speed with
  | none => (self, [])
  | some v => (self, [DeviceCall.set_fan_speed v])

/-- Command `send_command`: delegates to
`self._device.raw_command(command, params or [])`. -/
def send_command (self : Xiaomi1CVacuum) (command : String)
    (params : Option (List (String × String))) :
    Xiaomi1CVacuum × List DeviceCall :=
  (self, [DeviceCall.raw_command command (params.getD [])])

end Xiaomi1CVacuum

/-- A concrete entity state used by witness instantiations. -/
def sampleState : Xiaomi1CVacuum :=
  { _available := false
  , _battery := some 77
  , _fan_speed := some 2
  , _status := some 3
  , _error := some 0
  , _clean_time := some 10
  , _clean_area := none }

/-- A concrete device status used by witness instantiations. -/
def sampleStatus : DreameStatus :=
  { battery := some 55
  , fan_speed := some 3
  , status := some 6
  , error := some 0
  , last_clean := some 42
  , area := some 12 }

/-- C1: for every stored status code c in {1,2,3,4,5,6}, the `activity`
property returns exactly the value of the `STATUS_TO_ACTIVITY` table:
1 -> CLEANING, 2 -> IDLE, 3 -> PAUSED, 4 -> ERROR, 5 -> RETURNING,
6 -> DOCKED. -/
theorem C1_activity_table (s : Xiaomi1CVacuum) :
    Xiaomi1CVacuum.activity { s with _status := some 1 }
      = some VacuumActivity.cleaning ∧
    Xiaomi1CVacuum.activity { s with _status := some 2 }
      = some VacuumActivity.idle ∧
    Xiaomi1CVacuum.activity { s with _status := some 3 }
      = some VacuumActivity.paused ∧
    Xiaomi1CVacuum.activity { s with _status := some 4 }
      = some VacuumActivity.error ∧
    Xiaomi1CVacuum.activity { s with _status := some 5 }
      = some VacuumActivity.returning ∧
    Xiaomi1CVacuum.activity { s with _status := some 6 }
      = some VacuumActivity.docked :=
  ⟨rfl, rfl, rfl, rfl, rfl, rfl⟩

/-- C2: `set_fan_speed` maps "Silent"/"Standard"/"Medium"/"Turbo" to
device calls with integers 0/1/2/3 respectively, and for every name
outside `FAN_SPEEDS` it makes no device call and returns (the entity
state is unchanged in every case). -/
theorem C2_set_fan_speed_mapping (s : Xiaomi1CVacuum) (name : String)
    (h : fanSpeedsLookup name = none) :
    s.set_fan_speed "Silent" = (s, [DeviceCall.set_fan_speed 0]) ∧
    s.set_fan_speed "Standard" = (s, [DeviceCall.set_fan_speed 1]) ∧
    s.set_fan_speed "Medium" = (s, [DeviceCall.set_fan_speed 2]) ∧
    s.set_fan_speed "Turbo" = (s, [DeviceCall.set_fan_speed 3]) ∧
    s.set_fan_speed name = (s, []) := by
  refine ⟨rfl, rfl, rfl, rfl, ?_⟩
  simp [Xiaomi1CVacuum.set_fan_speed, h]

/-- Witness for C2 at the unmapped name "Eco". -/
theorem C2_set_fan_speed_mapping_witness :
    sampleState.set_fan_speed "Silent" = (sampleState, [DeviceCall.set_fan_speed 0]) ∧
    sampleState.set_fan_speed "Standard" = (sampleState, [DeviceCall.set_fan_speed 1]) ∧
    sampleState.set_fan_speed "Medium" = (sampleState, [DeviceCall.set_fan_speed 2]) ∧
    sampleState.set_fan_speed "Turbo" = (sampleState, [DeviceCall.set_fan_speed 3]) ∧
    sampleState.set_fan_speed "Eco" = (sampleState, []) :=
  C2_set_fan_speed_mapping sampleState "Eco" (by decide)

/-- C3: after `update`, the `available` property is `false` when the
status call raised `DeviceException` and `true` when it succeeded,
whatever the prior entity state. -/
theorem C3_available_tracks_update (s : Xiaomi1CVacuum)
    (st : DreameStatus) (exc : DeviceException) :
    (Xiaomi1CVacuum.update s (Except.ok st)).1.available = true ∧
    (Xiaomi1CVacuum.update s (Except.error exc)).1.available = false :=
  ⟨rfl, rfl⟩

/-- C4: when `update` fails with a `DeviceException`, the resulting state
is the prior state with only `_available` set to `false` (every other
field keeps its prior value), and the call trace is the single
`status()` call (no retry). -/
theorem C4_error_frame (s : Xiaomi1CVacuum) (exc : DeviceException) :
    Xiaomi1CVacuum.update s (Except.error exc)
      = ({ s with _available := false }, [DeviceCall.status]) :=
  rfl

/-- C5: every platform command delegates to exactly one device-client
method, with the mapping start -> start, stop -> stop,
pause -> stop_sweeping, return_to_base -> return_home, locate -> find,
set_fan_speed -> set_fan_speed (with the mapped integer),
send_command -> raw_command, and leaves the entity state unchanged. -/
theorem C5_command_delegation (s : Xiaomi1CVacuum) (name : String)
    (v : Int) (cmd : String) (params : Option (List (String × String)))
    (h : fanSpeedsLookup name = some v) :
    s.start = (s, [DeviceCall.start]) ∧
    s.stop = (s, [DeviceCall.stop]) ∧
    s.pause = (s, [DeviceCall.stop_sweeping]) ∧
    s.return_to_base = (s, [DeviceCall.return_home]) ∧
    s.locate = (s, [DeviceCall.find]) ∧
    s.set_fan_speed name = (s, [DeviceCall.set_fan_speed v]) ∧
    s.send_command cmd params
      = (s, [DeviceCall.raw_command cmd (params.getD [])]) := by
  refine ⟨rfl, rfl, rfl, rfl, rfl, ?_, rfl⟩
  simp [Xiaomi1CVacuum.set_fan_speed, h]

/-- Witness for C5 at the name "Turbo" (mapped to 3). -/
theorem C5_command_delegation_witness :
    sampleState.start = (sampleState, [DeviceCall.start]) ∧
    sampleState.stop = (sampleState, [DeviceCall.stop]) ∧
    sampleState.pause = (sampleState, [DeviceCall.stop_sweeping]) ∧
    sampleState.return_to_base = (sampleState, [DeviceCall.return_home]) ∧
    sampleState.locate = (sampleState, [DeviceCall.find]) ∧
    sampleState.set_fan_speed "Turbo" = (sampleState, [DeviceCall.set_fan_speed 3]) ∧
    sampleState.send_command "action" none
      = (sampleState, [DeviceCall.raw_command "action" []]) :=
  C5_command_delegation sampleState "Turbo" 3 "action" none (by decide)

/-- C6: when `update` succeeds with status `st`, the stored fields become
exactly `st`'s attributes (battery, fan_speed, status, error, last_clean,
area), and the `battery_level`, `activity`, `fan_speed` and
`extra_state_attributes` properties of the resulting state are derived
from exactly these stored values. -/
theorem C6_update_success (s : Xiaomi1CVacuum) (st : DreameStatus) :
    ((Xiaomi1CVacuum.update s (Except.ok st)).1._battery = st.battery ∧
     (Xiaomi1CVacuum.update s (Except.ok st)).1._fan_speed = st.fan_speed ∧
     (Xiaomi1CVacuum.update s (Except.ok st)).1._status = st.status ∧
     (Xiaomi1CVacuum.update s (Except.ok st)).1._error = st.error ∧
     (Xiaomi1CVacuum.update s (Except.ok st)).1._clean_time = st.last_clean ∧
     (Xiaomi1CVacuum.update s (Except.ok st)).1._clean_area = st.area) ∧
    (Xiaomi1CVacuum.update s (Except.ok st)).1.battery_level = st.battery ∧
    (Xiaomi1CVacuum.update s (Except.ok st)).1.activity
      = st.status.map statusToActivityGet ∧
    (Xiaomi1CVacuum.update s (Except.ok st)).1.fan_speed
      = st.fan_speed.map (fun v =>
          (((FAN_SPEEDS.map (fun p => (p.2, p.1))).find?
              (fun p => p.1 == v)).map Prod.snd).getD "Standard") ∧
    (Xiaomi1CVacuum.update s (Except.ok st)).1.extra_state_attributes
      = Xiaomi1CVacuum.extra_state_attributes
          { _available := true
          , _battery := st.battery
          , _fan_speed := st.fan_speed
          , _status := st.status
          , _error := st.error
          , _clean_time := st.last_clean
          , _clean_area := st.area } := by
  obtain ⟨b, f, c, e, lc, a⟩ := st
  refine ⟨⟨rfl, rfl, rfl, rfl, rfl, rfl⟩, rfl, ?_, ?_, rfl⟩
  · cases c <;> rfl
  · cases f <;> rfl

/-- C7: `activity` is total: it returns `None` iff the stored status is
`None`, and for every non-`None` status code outside the table's keys
{1,...,6} it returns `VacuumActivity.IDLE` as the fallback. -/
theorem C7_activity_total (s : Xiaomi1CVacuum) (c : Int)
    (hc : c ∉ ([1, 2, 3, 4, 5, 6] : List Int)) :
    (s.activity = none ↔ s._status = none) ∧
    Xiaomi1CVacuum.activity { s with _status := some c }
      = some VacuumActivity.idle := by
  obtain ⟨h1, h2, h3, h4, h5, h6⟩ :
      c ≠ 1 ∧ c ≠ 2 ∧ c ≠ 3 ∧ c ≠ 4 ∧ c ≠ 5 ∧ c ≠ 6 := by
    simpa using hc
  constructor
  · cases h : s._status <;> simp [Xiaomi1CVacuum.activity, h]
  · have e1 : ((1 : Int) == c) = false := beq_eq_false_iff_ne.mpr (Ne.symm h1)
    have e2 : ((2 : Int) == c) = false := beq_eq_false_iff_ne.mpr (Ne.symm h2)
    have e3 : ((3 : Int) == c) = false := beq_eq_false_iff_ne.mpr (Ne.symm h3)
    have e4 : ((4 : Int) == c) = false := beq_eq_false_iff_ne.mpr (Ne.symm h4)
    have e5 : ((5 : Int) == c) = false := beq_eq_false_iff_ne.mpr (Ne.symm h5)
    have e6 : ((6 : Int) == c) = false := beq_eq_false_iff_ne.mpr (Ne.symm h6)
    simp [Xiaomi1CVacuum.activity, statusToActivityGet, STATUS_TO_ACTIVITY,
      List.find?, e1, e2, e3, e4, e5, e6]

/-- Witness for C7 at the out-of-table status code 7. -/
theorem C7_activity_total_witness :
    (sampleState.activity = none ↔ sampleState._status = none) ∧
    Xiaomi1CVacuum.activity { sampleState with _status := some 7 }
      = some VacuumActivity.idle :=
  C7_activity_total sampleState 7 (by decide)

/-- C8: the fan-speed tables round-trip: for every name in the
`fan_speed_list`, looking the mapped integer up in the reversed table
returns the same name, so after a successful update in which the device
reports the integer that `set_fan_speed(name)` sent, the `fan_speed`
property returns `name`; for every stored integer outside {0,1,2,3} the
`fan_speed` property returns "Standard"; and it returns `None` iff the
stored fan speed is `None`. -/
theorem C8_fan_speed_roundtrip (s t : Xiaomi1CVacuum) (st : DreameStatus)
    (name : String) (v w : Int)
    (hmem : name ∈ s.fan_speed_list)
    (hlook : fanSpeedsLookup name = some v)
    (hst : st.fan_speed = some v)
    (hout : w ∉ ([0, 1, 2, 3] : List Int)) :
    Xiaomi1CVacuum.fan_speed { s with _fan_speed := some v } = some name ∧
    (Xiaomi1CVacuum.update t (Except.ok st)).1.fan_speed = some name ∧
    Xiaomi1CVacuum.fan_speed { s with _fan_speed := some w } = some "Standard" ∧
    (s.fan_speed = none ↔ s._fan_speed = none) := by
  obtain ⟨hw0, hw1, hw2, hw3⟩ : w ≠ 0 ∧ w ≠ 1 ∧ w ≠ 2 ∧ w ≠ 3 := by
    simpa using hout
  have f0 : ((0 : Int) == w) = false := beq_eq_false_iff_ne.mpr (Ne.symm hw0)
  have f1 : ((1 : Int) == w) = false := beq_eq_false_iff_ne.mpr (Ne.symm hw1)
  have f2 : ((2 : Int) == w) = false := beq_eq_false_iff_ne.mpr (Ne.symm hw2)
  have f3 : ((3 : Int) == w) = false := beq_eq_false_iff_ne.mpr (Ne.symm hw3)
  have hstd :
      Xiaomi1CVacuum.fan_speed { s with _fan_speed := some w }
        = some "Standard" := by
    simp [Xiaomi1CVacuum.fan_speed, FAN_SPEEDS, List.find?, f0, f1, f2, f3]
  have hnone : s.fan_speed = none ↔ s._fan_speed = none := by
    cases h : s._fan_speed <;> simp [Xiaomi1CVacuum.fan_speed, h]
  have hrt : Xiaomi1CVacuum.fan_speed { s with _fan_speed := some v }
      = some name := by
    simp [Xiaomi1CVacuum.fan_speed_list, FAN_SPEEDS] at hmem
    rcases hmem with h | h | h | h <;> subst h
    · have h0 : fanSpeedsLookup "Silent" = some 0 := by decide
      rw [h0] at hlook
      injection hlook with hv
      subst hv
      rfl
    · have h1 : fanSpeedsLookup "Standard" = some 1 := by decide
      rw [h1] at hlook
      injection hlook with hv
      subst hv
      rfl
    · have h2 : fanSpeedsLookup "Medium" = some 2 := by decide
      rw [h2] at hlook
      injection hlook with hv
      subst hv
      rfl
    · have h3 : fanSpeedsLookup "Turbo" = some 3 := by decide
      rw [h3] at hlook
      injection hlook with hv
      subst hv
      rfl
  have hupd : (Xiaomi1CVacuum.update t (Except.ok st)).1.fan_speed
      = some name := by
    obtain ⟨b, f, c, e, lc, a⟩ := st
    simp only [DreameStatus.fan_speed] at hst
    subst hst
    simpa [Xiaomi1CVacuum.update, Xiaomi1CVacuum.fan_speed] using
      (by simpa [Xiaomi1CVacuum.fan_speed] using hrt :
        (((FAN_SPEEDS.map (fun p => (p.2, p.1))).find?
            (fun p => p.1 == v)).map Prod.snd).getD "Standard" = name)
  exact ⟨hrt, hupd, hstd, hnone⟩

/-- Witness for C8 at name "Turbo" (mapped integer 3) and
out-of-table integer 9. -/
theorem C8_fan_speed_roundtrip_witness :
    Xiaomi1CVacuum.fan_speed { sampleState with _fan_speed := some 3 }
      = some "Turbo" ∧
    (Xiaomi1CVacuum.update sampleState (Except.ok sampleStatus)).1.fan_speed
      = some "Turbo" ∧
    Xiaomi1CVacuum.fan_speed { sampleState with _fan_speed := some 9 }
      = some "Standard" ∧
    (sampleState.fan_speed = none ↔ sampleState._fan_speed = none) :=
  C8_fan_speed_roundtrip sampleState sampleState sampleStatus "Turbo" 3 9
    (by decide) (by decide) (by decide) (by decide)

/-- C9: `extra_state_attributes` contains "cleaning_time" iff the stored
clean time is not `None`, "cleaning_area" iff the stored clean area is
not `None`, "error_code" iff the stored error is not `None` and not
`some 0`, and no other keys: every key of the attribute dict is one of
these three. -/
theorem C9_extra_state_attributes_keys (s : Xiaomi1CVacuum) :
    ("cleaning_time" ∈ s.extra_state_attributes.map Prod.fst
      ↔ s._clean_time ≠ none) ∧
    ("cleaning_area" ∈ s.extra_state_attributes.map Prod.fst
      ↔ s._clean_area ≠ none) ∧
    ("error_code" ∈ s.extra_state_attributes.map Prod.fst
      ↔ (s._error ≠ none ∧ s._error ≠ some 0)) ∧
    ∀ k, k ∈ s.extra_state_attributes.map Prod.fst →
      k = "cleaning_time" ∨ k = "cleaning_area" ∨ k = "error_code" := by
  rcases hct : s._clean_time with _ | t <;>
  rcases hca : s._clean_area with _ | a <;>
  rcases he : s._error with _ | e
  all_goals
    simp [Xiaomi1CVacuum.extra_state_attributes, hct, hca, he]

/-- Witness for C9 at a state whose clean time is set, clean area unset,
error zero, instantiating the no-other-keys conjunct at "cleaning_time". -/
theorem C9_extra_state_attributes_keys_witness :
    ("cleaning_time" ∈ sampleState.extra_state_attributes.map Prod.fst
      ↔ sampleState._clean_time ≠ none) ∧
    ("cleaning_area" ∈ sampleState.extra_state_attributes.map Prod.fst
      ↔ sampleState._clean_area ≠ none) ∧
    ("error_code" ∈ sampleState.extra_state_attributes.map Prod.fst
      ↔ (sampleState._error ≠ none ∧ sampleState._error ≠ some 0)) ∧
    ("cleaning_time" = "cleaning_time" ∨ "cleaning_time" = "cleaning_area" ∨
      "cleaning_time" = "error_code") :=
  ⟨(C9_extra_state_attributes_keys sampleState).1,
   (C9_extra_state_attributes_keys sampleState).2.1,
   (C9_extra_state_attributes_keys sampleState).2.2.1,
   (C9_extra_state_attributes_keys sampleState).2.2.2 "cleaning_time"
     (by decide)⟩
